import Mathlib

/-!
Shallow embedding of the gameplay core of `fruit_ninja.py` (class `FruitNinja`
and the entity classes `Fruit`, `Bomb`, `SlicedFruit`, `Particle`).

Modelling conventions:
* Python floats are modelled as rationals (`ℚ`) in the simulation state; the
  point-to-segment distance, which takes a square root, is modelled over `ℝ`
  and bridged to a rational squared-distance computation.
* Calls to `random.*` and asset-derived attributes (image sizes, image
  presence) are modelled as explicit inputs (`FruitEnv`, `BombEnv`,
  `SliceEnv`, `TickEnv`): the Python functions draw them from a generator,
  here they are arguments of the step functions.
* Rendering, sound playback and file persistence are external effects with
  no influence on the modelled state and are omitted.
-/

namespace FruitNinjaGame

/-- SCREEN_WIDTH constant from fruit_ninja.py. -/
def SCREEN_WIDTH : ℚ := 800

/-- SCREEN_HEIGHT constant from fruit_ninja.py. -/
def SCREEN_HEIGHT : ℚ := 600

/-- FPS constant from fruit_ninja.py. -/
def FPS : ℚ := 60

/-- GRAVITY constant from fruit_ninja.py (0.35). -/
def GRAVITY : ℚ := 35 / 100

/-- TOP_BAR_HEIGHT constant. -/
def TOP_BAR_HEIGHT : ℚ := 80

/-- BOTTOM_BAR_HEIGHT constant. -/
def BOTTOM_BAR_HEIGHT : ℚ := 60

/-- GAME_AREA_Y = TOP_BAR_HEIGHT. -/
def GAME_AREA_Y : ℚ := TOP_BAR_HEIGHT

/-- GAME_AREA_HEIGHT = SCREEN_HEIGHT - TOP_BAR_HEIGHT - BOTTOM_BAR_HEIGHT. -/
def GAME_AREA_HEIGHT : ℚ := SCREEN_HEIGHT - TOP_BAR_HEIGHT - BOTTOM_BAR_HEIGHT

/-- MAX_LIVES constant (3). -/
def MAX_LIVES : ℤ := 3

/-- An RGB color triple; `Particle.__init__` clamps each channel to [0, 255]. -/
def clampChannel (c : ℤ) : ℤ := max 0 (min 255 c)

/-- Class `Fruit`: position, velocity, rotation, radius and asset flags.
The `image`/`sliced_image`/`half_images` surfaces are external assets; the
model keeps only what gameplay reads: the radius derived from the image and
the presence flags used by `slice_fruit`. -/
structure Fruit where
  x : ℚ
  y : ℚ
  vx : ℚ
  vy : ℚ
  angle : ℚ
  rotation_speed : ℚ
  radius : ℚ
  fruit_type : String
  color : ℤ × ℤ × ℤ
  hasSlicedImage : Bool
  hasHalfImages : Bool
  deriving Repr, DecidableEq

/-- `Fruit.update`: advance position by velocity, apply gravity to `vy`,
advance rotation, then clamp `x` to `[radius, SCREEN_WIDTH - radius]`. -/
def Fruit.update (f : Fruit) : Fruit :=
  let x := f.x + f.vx
  let y := f.y + f.vy
  let vy := f.vy + GRAVITY
  let angle := f.angle + f.rotation_speed
  { f with
    x := max f.radius (min (SCREEN_WIDTH - f.radius) x)
    y := y
    vy := vy
    angle := angle }

/-- `Fruit.is_missed`: true when the fruit fell below the game area,
`y - radius > GAME_AREA_Y + GAME_AREA_HEIGHT`. -/
def Fruit.is_missed (f : Fruit) : Bool :=
  decide (GAME_AREA_Y + GAME_AREA_HEIGHT < f.y - f.radius)

/-- Class `Bomb`: same kinematic state as `Fruit` plus a pulse timer. -/
structure Bomb where
  x : ℚ
  y : ℚ
  vx : ℚ
  vy : ℚ
  angle : ℚ
  rotation_speed : ℚ
  radius : ℚ
  pulse_timer : ℕ
  deriving Repr, DecidableEq

/-- `Bomb.update`: like `Fruit.update` but with gravity scaled by 0.8 and a
pulse-timer increment. -/
def Bomb.update (b : Bomb) : Bomb :=
  let x := b.x + b.vx
  let y := b.y + b.vy
  let vy := b.vy + GRAVITY * (8 / 10)
  let angle := b.angle + b.rotation_speed
  { b with
    x := max b.radius (min (SCREEN_WIDTH - b.radius) x)
    y := y
    vy := vy
    angle := angle
    pulse_timer := b.pulse_timer + 1 }

/-- `Bomb.is_off_screen`: true once the bomb passed the bottom boundary by a
60 pixel tolerance, `y - radius > GAME_AREA_Y + GAME_AREA_HEIGHT + 60`. -/
def Bomb.is_off_screen (b : Bomb) : Bool :=
  decide (GAME_AREA_Y + GAME_AREA_HEIGHT + 60 < b.y - b.radius)

/-- Class `SlicedFruit`: two half-bodies flying apart with a 60-frame life.
The random launch angle and speed of `__init__` enter through the
cosine/sine values and speed recorded in `SliceEnv`. -/
structure SlicedFruit where
  x : ℚ
  y : ℚ
  fruit_type : String
  half1_x : ℚ
  half1_y : ℚ
  half2_x : ℚ
  half2_y : ℚ
  half1_vx : ℚ
  half1_vy : ℚ
  half2_vx : ℚ
  half2_vy : ℚ
  rotation1 : ℚ
  rotation2 : ℚ
  rotation_speed1 : ℚ
  rotation_speed2 : ℚ
  life : ℤ
  deriving Repr, DecidableEq

/-- `SlicedFruit.update`: move both halves, add 0.5 gravity to each vertical
velocity, advance both rotations, decrement `life`. -/
def SlicedFruit.update (sf : SlicedFruit) : SlicedFruit :=
  { sf with
    half1_x := sf.half1_x + sf.half1_vx
    half1_y := sf.half1_y + sf.half1_vy
    half2_x := sf.half2_x + sf.half2_vx
    half2_y := sf.half2_y + sf.half2_vy
    half1_vy := sf.half1_vy + 1 / 2
    half2_vy := sf.half2_vy + 1 / 2
    rotation1 := sf.rotation1 + sf.rotation_speed1
    rotation2 := sf.rotation2 + sf.rotation_speed2
    life := sf.life - 1 }

/-- `SlicedFruit.is_alive`: `life > 0`. -/
def SlicedFruit.is_alive (sf : SlicedFruit) : Bool := decide (0 < sf.life)

/-- Class `Particle`: position, velocity, clamped color, size, 30-frame life. -/
structure Particle where
  x : ℚ
  y : ℚ
  vx : ℚ
  vy : ℚ
  color : ℤ × ℤ × ℤ
  size : ℤ
  life : ℤ
  deriving Repr, DecidableEq

/-- Random draws consumed by `Particle.__init__` (`vx`, `vy` uniform in
[-5, 5], `size` randint(3, 8)). -/
structure ParticleEnv where
  vx : ℚ
  vy : ℚ
  size : ℤ
  deriving Repr, DecidableEq

/-- `Particle.__init__`: store position, the supplied random velocity and
size, clamp the color channels, set `life = 30`. -/
def Particle.init (x y : ℚ) (color : ℤ × ℤ × ℤ) (pe : ParticleEnv) : Particle :=
  { x := x
    y := y
    vx := pe.vx
    vy := pe.vy
    color := (clampChannel color.1, clampChannel color.2.1, clampChannel color.2.2)
    size := pe.size
    life := 30 }

/-- `Particle.update`: move, decrement life, add 0.3 gravity to `vy`. -/
def Particle.update (p : Particle) : Particle :=
  { p with
    x := p.x + p.vx
    y := p.y + p.vy
    life := p.life - 1
    vy := p.vy + 3 / 10 }

/-- `Particle.is_alive`: `life > 0`. -/
def Particle.is_alive (p : Particle) : Bool := decide (0 < p.life)

/-- The gameplay state held on the `FruitNinja` object.  Fields that only
serve rendering, audio or persistence (fonts, surfaces, sound dictionary,
player name, music flags) are omitted; `game_mode` is kept because the
update loop and difficulty settings branch on it. -/
structure GameState where
  fruits : List Fruit
  bombs : List Bomb
  sliced_fruits : List SlicedFruit
  particles : List Particle
  score : ℤ
  best_score : ℤ
  lives : ℤ
  game_over : Bool
  combo : ℕ
  combo_timer : ℕ
  combo_timeout : ℕ
  show_title_screen : Bool
  swipe_path : List (ℚ × ℚ)
  swiping : Bool
  title_sliced : Bool
  bomb_flash_active : Bool
  bomb_flash_timer : ℕ
  bomb_flash_duration : ℚ
  bomb_flash_center : Option (ℚ × ℚ)
  life_loss_duration : ℕ
  life_loss_timer : ℕ
  life_loss_index : Option ℤ
  spawn_timer : ℕ
  spawn_interval : ℚ
  bomb_spawn_timer : ℕ
  bomb_spawn_interval : ℚ
  fruit_velocity_min : ℚ
  fruit_velocity_max : ℚ
  fruit_horizontal_velocity : ℚ
  bomb_velocity_min : ℚ
  bomb_velocity_max : ℚ
  spawn_acceleration : ℚ
  bomb_spawn_acceleration : ℚ
  game_mode : String
  deriving Repr, DecidableEq

/-- `FruitNinja.apply_game_mode_difficulty`: set the difficulty parameters
from `game_mode` ("Kolay" / "Zor" / anything else is the "Orta" default). -/
def apply_game_mode_difficulty (s : GameState) : GameState :=
  if s.game_mode = "Kolay" then
    { s with
      spawn_interval := 90
      bomb_spawn_interval := 9999
      fruit_velocity_min := -12
      fruit_velocity_max := -9
      fruit_horizontal_velocity := 3
      bomb_velocity_min := -8
      bomb_velocity_max := -6
      spawn_acceleration := 3 / 10
      bomb_spawn_acceleration := 0 }
  else if s.game_mode = "Zor" then
    { s with
      spawn_interval := 35
      bomb_spawn_interval := 150
      fruit_velocity_min := -22
      fruit_velocity_max := -15
      fruit_horizontal_velocity := 9
      bomb_velocity_min := -13
      bomb_velocity_max := -10
      spawn_acceleration := 2
      bomb_spawn_acceleration := 10 }
  else
    { s with
      spawn_interval := 55
      bomb_spawn_interval := 280
      fruit_velocity_min := -18
      fruit_velocity_max := -12
      fruit_horizontal_velocity := 7
      bomb_velocity_min := -11
      bomb_velocity_max := -9
      spawn_acceleration := 12 / 10
      bomb_spawn_acceleration := 6 }

/-- `FruitNinja.reset_game`: clear all entity collections and the swipe
path, reset score, lives, combo, timers, then re-apply the current game
mode's difficulty settings. -/
def reset_game (s : GameState) : GameState :=
  apply_game_mode_difficulty
    { s with
      fruits := []
      bombs := []
      sliced_fruits := []
      particles := []
      score := 0
      lives := MAX_LIVES
      game_over := false
      show_title_screen := false
      swipe_path := []
      spawn_timer := 0
      bomb_spawn_timer := 0
      combo := 0
      combo_timer := 0
      life_loss_index := none
      life_loss_timer := 0 }

/-- `FruitNinja.start_bomb_flash`: set game over, key the flash to the
bomb's position, activate the flash with timer 0, clear the in-flight fruit
and bomb collections.  (Sound playback is an external effect.) -/
def start_bomb_flash (s : GameState) (bomb : Bomb) : GameState :=
  { s with
    game_over := true
    bomb_flash_center := some (bomb.x, bomb.y)
    bomb_flash_active := true
    bomb_flash_timer := 0
    fruits := []
    bombs := [] }

/-- Random draws and asset-derived attributes consumed by
`FruitNinja.spawn_fruit`: the random x position, velocities, rotation
speed, the chosen fruit type, and the radius / presence flags derived from
the loaded images. -/
structure FruitEnv where
  x : ℤ
  vx : ℚ
  vy : ℚ
  rotation_speed : ℚ
  radius : ℚ
  fruit_type : String
  hasSlicedImage : Bool
  hasHalfImages : Bool
  deriving Repr, DecidableEq

/-- Random draws consumed by `FruitNinja.spawn_bomb`. -/
structure BombEnv where
  x : ℤ
  vx : ℚ
  vy : ℚ
  rotation_speed : ℚ
  deriving Repr, DecidableEq

/-- Random draws consumed by one call of `FruitNinja.update`. -/
structure TickEnv where
  fruit : FruitEnv
  bomb : BombEnv
  deriving Repr, DecidableEq

/-- `FruitNinja.spawn_fruit`: append a new fruit at the bottom edge
(`y = GAME_AREA_Y + GAME_AREA_HEIGHT + 30`) with the supplied random
velocities.  `Fruit.__init__` receives no color argument here, so the
fallback color RED is stored; `angle` starts at 0. -/
def spawn_fruit (s : GameState) (env : FruitEnv) : GameState :=
  { s with
    fruits := s.fruits ++
      [{ x := (env.x : ℚ)
         y := GAME_AREA_Y + GAME_AREA_HEIGHT + 30
         vx := env.vx
         vy := env.vy
         angle := 0
         rotation_speed := env.rotation_speed
         radius := env.radius
         fruit_type := env.fruit_type
         color := (255, 0, 0)
         hasSlicedImage := env.hasSlicedImage
         hasHalfImages := env.hasHalfImages }] }

/-- `FruitNinja.spawn_bomb`: append a new bomb at the bottom edge with the
supplied random velocities.  `Bomb.__init__` fixes `radius = 30`,
`angle = 0`, `pulse_timer = 0`. -/
def spawn_bomb (s : GameState) (env : BombEnv) : GameState :=
  { s with
    bombs := s.bombs ++
      [{ x := (env.x : ℚ)
         y := GAME_AREA_Y + GAME_AREA_HEIGHT + 30
         vx := env.vx
         vy := env.vy
         angle := 0
         rotation_speed := env.rotation_speed
         radius := 30
         pulse_timer := 0 }] }

/-- Fruit-spawn section of `FruitNinja.update`: increment `spawn_timer`;
once it reaches `spawn_interval`, spawn a fruit, reset the timer and shrink
the interval by `spawn_acceleration` down to the mode floor (20 in "Zor",
30 otherwise). -/
def spawnFruitPhase (s : GameState) (env : TickEnv) : GameState :=
  let t := s.spawn_timer + 1
  if s.spawn_interval ≤ (t : ℚ) then
    let s2 := spawn_fruit s env.fruit
    let min_interval : ℚ := if s.game_mode = "Zor" then 20 else 30
    { s2 with
      spawn_timer := 0
      spawn_interval := max min_interval (s.spawn_interval - s.spawn_acceleration) }
  else
    { s with spawn_timer := t }

/-- Bomb-spawn section of `FruitNinja.update`: skipped entirely in "Kolay"
mode; otherwise the same countdown scheme with floor 100 in "Zor" and 180
otherwise. -/
def spawnBombPhase (s : GameState) (env : TickEnv) : GameState :=
  if s.game_mode ≠ "Kolay" then
    let t := s.bomb_spawn_timer + 1
    if s.bomb_spawn_interval ≤ (t : ℚ) then
      let s2 := spawn_bomb s env.bomb
      let min_bomb_interval : ℚ := if s.game_mode = "Zor" then 100 else 180
      { s2 with
        bomb_spawn_timer := 0
        bomb_spawn_interval :=
          max min_bomb_interval (s.bomb_spawn_interval - s.bomb_spawn_acceleration) }
    else
      { s with bomb_spawn_timer := t }
  else s

/-- Per-missed-fruit bookkeeping in `FruitNinja.update`: decrement lives,
start the life-loss animation on the lost heart index, and set game over
once lives reach 0 (no bomb flash on this path). -/
def missStep (s : GameState) : GameState :=
  let lives := s.lives - 1
  let s2 :=
    { s with
      lives := lives
      life_loss_index := some (MAX_LIVES - lives - 1)
      life_loss_timer := s.life_loss_duration }
  if lives ≤ 0 ∧ s2.game_over = false then { s2 with game_over := true } else s2

/-- The fruits now below the bottom boundary after this tick's physics
step (the `fruits_to_remove` list of `FruitNinja.update`). -/
def missedAfterMove (s : GameState) : List Fruit :=
  (s.fruits.map Fruit.update).filter Fruit.is_missed

/-- Fruit section of `FruitNinja.update`: move every fruit, drop the ones
below the bottom boundary and run `missStep` once per dropped fruit. -/
def fruitPhase (s : GameState) : GameState :=
  let moved := s.fruits.map Fruit.update
  let missed := moved.filter Fruit.is_missed
  let s2 := { s with fruits := moved.filter (fun f => !f.is_missed) }
  missed.foldl (fun acc _ => missStep acc) s2

/-- Bomb section of `FruitNinja.update`: every bomb gets a physics step.
The source never removes bombs here (`Bomb.is_off_screen` has no caller). -/
def bombPhase (s : GameState) : GameState :=
  { s with bombs := s.bombs.map Bomb.update }

/-- Sliced-fruit section of `FruitNinja.update`: step then keep alive. -/
def slicedPhase (s : GameState) : GameState :=
  { s with sliced_fruits := (s.sliced_fruits.map SlicedFruit.update).filter SlicedFruit.is_alive }

/-- Particle section of `FruitNinja.update`: step then keep alive. -/
def particlePhase (s : GameState) : GameState :=
  { s with particles := (s.particles.map Particle.update).filter Particle.is_alive }

/-- Bomb-flash branch of `FruitNinja.update`: advance only the flash timer
and deactivate the flash once the duration is reached. -/
def flashTick (s : GameState) : GameState :=
  let t := s.bomb_flash_timer + 1
  if s.bomb_flash_duration ≤ (t : ℚ) then
    { s with bomb_flash_timer := t, bomb_flash_active := false }
  else
    { s with bomb_flash_timer := t }

/-- `FruitNinja.update`, one simulation tick: return unchanged on the title
screen; during an active bomb flash advance only the flash timer; otherwise
run the spawn, fruit, bomb, sliced-fruit and particle sections in source
order. -/
def update (s : GameState) (env : TickEnv) : GameState :=
  if s.show_title_screen then s
  else if s.game_over && s.bomb_flash_active then flashTick s
  else
    particlePhase (slicedPhase (bombPhase (fruitPhase
      (spawnBombPhase (spawnFruitPhase s env) env))))

/-- Random draws consumed by one call of `FruitNinja.slice_fruit`:
`cosAngle`/`sinAngle`/`speed` stand for `cos(angle)`, `sin(angle)` and the
speed of the `SlicedFruit.__init__` launch draw, `rotation_speed1/2` its
spin draws, `fragOffX/Y` the fragment-position offsets, and `parts i` the
draws of the i-th created particle. -/
structure SliceEnv where
  cosAngle : ℚ
  sinAngle : ℚ
  speed : ℚ
  rotation_speed1 : ℚ
  rotation_speed2 : ℚ
  fragOffX : ℤ
  fragOffY : ℤ
  parts : ℕ → ParticleEnv

/-- `SlicedFruit.__init__` at the sliced fruit's position: both halves
start at the fruit center with opposite velocities derived from the launch
angle and speed, slight upward bias, and a 60-frame life. -/
def mkSlicedFruit (x y : ℚ) (fruit_type : String) (e : SliceEnv) : SlicedFruit :=
  { x := x
    y := y
    fruit_type := fruit_type
    half1_x := x
    half1_y := y
    half2_x := x
    half2_y := y
    half1_vx := e.cosAngle * e.speed
    half1_vy := e.sinAngle * e.speed - 2
    half2_vx := -(e.cosAngle * e.speed)
    half2_vy := -(e.sinAngle * e.speed) - 2
    rotation1 := 0
    rotation2 := 0
    rotation_speed1 := e.rotation_speed1
    rotation_speed2 := e.rotation_speed2
    life := 60 }

/-- `FruitNinja.slice_fruit`: append a `SlicedFruit` when the fruit has a
sliced sprite or half images, append 5 juice particles in the fruit's color
and 2 yellow fragment particles, increment the combo and reload its timer,
then add `1 + max(1, combo - 1)` points (combo already incremented) and
raise the best score if exceeded. -/
def slice_fruit (s : GameState) (fruit : Fruit) (e : SliceEnv) : GameState :=
  let s1 :=
    if fruit.hasSlicedImage || fruit.hasHalfImages then
      { s with sliced_fruits := s.sliced_fruits ++ [mkSlicedFruit fruit.x fruit.y fruit.fruit_type e] }
    else s
  let juice := (List.range 5).map (fun i => Particle.init fruit.x fruit.y fruit.color (e.parts i))
  let frag_x := fruit.x + (e.fragOffX : ℚ)
  let frag_y := fruit.y + (e.fragOffY : ℚ)
  let frags := (List.range 2).map (fun i =>
    Particle.init frag_x frag_y (255, 255, 0) (e.parts (5 + i)))
  let s2 := { s1 with particles := s1.particles ++ juice ++ frags }
  let s3 := { s2 with combo := s2.combo + 1, combo_timer := s2.combo_timeout }
  let combo_multiplier : ℤ := max 1 ((s3.combo : ℤ) - 1)
  let points : ℤ := 1 + combo_multiplier
  let s4 := { s3 with score := s3.score + points }
  if s4.best_score < s4.score then { s4 with best_score := s4.score } else s4

/-- `FruitNinja.point_line_distance`: projection-clamped distance from the
point `(px, py)` to the segment `(x1, y1)-(x2, y2)`; degenerate segments
fall back to the point-to-point distance.  Python floats are modelled as
reals. -/
noncomputable def point_line_distance (px py x1 y1 x2 y2 : ℝ) : ℝ :=
  let A := px - x1
  let B := py - y1
  let C := x2 - x1
  let D := y2 - y1
  let dot := A * C + B * D
  let len_sq := C * C + D * D
  if len_sq = 0 then Real.sqrt (A * A + B * B)
  else
    let param := dot / len_sq
    let xx := if param < 0 then x1 else if 1 < param then x2 else x1 + param * C
    let yy := if param < 0 then y1 else if 1 < param then y2 else y1 + param * D
    Real.sqrt ((px - xx) * (px - xx) + (py - yy) * (py - yy))

/-- The square of `point_line_distance` computed over the rationals: same
projection and clamping, but returning the squared distance so that the
slice tests become decidable. -/
def distSqToClamped (px py x1 y1 x2 y2 : ℚ) : ℚ :=
  let A := px - x1
  let B := py - y1
  let C := x2 - x1
  let D := y2 - y1
  let dot := A * C + B * D
  let len_sq := C * C + D * D
  if len_sq = 0 then A * A + B * B
  else
    let param := dot / len_sq
    let xx := if param < 0 then x1 else if 1 < param then x2 else x1 + param * C
    let yy := if param < 0 then y1 else if 1 < param then y2 else y1 + param * D
    (px - xx) * (px - xx) + (py - yy) * (py - yy)

/-- Consecutive point pairs of a swipe path; fewer than two points give no
segments, matching the early `len(path) < 2` exits of the source. -/
def pathSegments (path : List (ℚ × ℚ)) : List ((ℚ × ℚ) × (ℚ × ℚ)) :=
  path.zip path.tail

/-- Per-segment slice test of `check_slice`/`check_bomb_slice`: the real
distance from the entity center to the segment is strictly below the
radius. -/
def segmentHit (cx cy r : ℚ) (a b : ℚ × ℚ) : Prop :=
  point_line_distance (cx : ℝ) (cy : ℝ) (a.1 : ℝ) (a.2 : ℝ) (b.1 : ℝ) (b.2 : ℝ) < (r : ℝ)

/-- Decidable rational formulation of `segmentHit`. -/
def segmentHitB (cx cy r : ℚ) (a b : ℚ × ℚ) : Bool :=
  decide (0 < r) && decide (distSqToClamped cx cy a.1 a.2 b.1 b.2 < r * r)

/-- `FruitNinja.check_slice`: some segment of the swipe path passes within
the fruit's radius. -/
def check_slice (fruit : Fruit) (path : List (ℚ × ℚ)) : Prop :=
  ∃ seg ∈ pathSegments path, segmentHit fruit.x fruit.y fruit.radius seg.1 seg.2

/-- Decidable form of `check_slice` used by the event handler model. -/
def check_sliceB (fruit : Fruit) (path : List (ℚ × ℚ)) : Bool :=
  (pathSegments path).any (fun seg => segmentHitB fruit.x fruit.y fruit.radius seg.1 seg.2)

/-- `FruitNinja.check_bomb_slice`: some segment of the swipe path passes
within the bomb's radius. -/
def check_bomb_slice (bomb : Bomb) (path : List (ℚ × ℚ)) : Prop :=
  ∃ seg ∈ pathSegments path, segmentHit bomb.x bomb.y bomb.radius seg.1 seg.2

/-- Decidable form of `check_bomb_slice`. -/
def check_bomb_sliceB (bomb : Bomb) (path : List (ℚ × ℚ)) : Bool :=
  (pathSegments path).any (fun seg => segmentHitB bomb.x bomb.y bomb.radius seg.1 seg.2)

/-- `FruitNinja.check_title_slice`: some segment of the swipe path crosses
the subtitle text band (y in [325, 375], x in [250, 550]), using the
min/max interval overlap tests of the source. -/
def check_title_slice (path : List (ℚ × ℚ)) : Bool :=
  let subtitle_y : ℚ := 350
  let subtitle_x_center : ℚ := 400
  let half_width : ℚ := 150
  (pathSegments path).any (fun seg =>
    let min_y := min seg.1.2 seg.2.2
    let max_y := max seg.1.2 seg.2.2
    let min_x := min seg.1.1 seg.2.1
    let max_x := max seg.1.1 seg.2.1
    (decide (subtitle_y - 25 ≤ min_y ∧ min_y ≤ subtitle_y + 25) ||
     decide (subtitle_y - 25 ≤ max_y ∧ max_y ≤ subtitle_y + 25) ||
     decide (min_y < subtitle_y - 25 ∧ subtitle_y + 25 < max_y)) &&
    (decide (subtitle_x_center - half_width ≤ min_x ∧ min_x ≤ subtitle_x_center + half_width) ||
     decide (subtitle_x_center - half_width ≤ max_x ∧ max_x ≤ subtitle_x_center + half_width) ||
     decide (min_x < subtitle_x_center - half_width ∧ subtitle_x_center + half_width < max_x)))

/-- The `MOUSEMOTION` branch of `FruitNinja.handle_events` while the left
button is held: append the sample to the swipe path, possibly dismiss the
title screen, then during play test every bomb first (the first hit bomb
triggers `start_bomb_flash` and the handler returns), otherwise slice and
remove every fruit hit by the path.  `envs i` supplies the random draws of
the i-th `slice_fruit` call. -/
def processMotion (s : GameState) (pos : ℚ × ℚ) (envs : ℕ → SliceEnv) : GameState :=
  if s.swiping then
    let s1 := { s with swipe_path := s.swipe_path ++ [pos] }
    let s2 :=
      if s1.show_title_screen && check_title_slice s1.swipe_path then
        { s1 with show_title_screen := false, title_sliced := true }
      else s1
    if !s2.game_over && !s2.show_title_screen then
      match s2.bombs.find? (fun b => check_bomb_sliceB b s2.swipe_path) with
      | some bomb => start_bomb_flash s2 bomb
      | none =>
        let fruits_to_remove := s2.fruits.filter (fun f => check_sliceB f s2.swipe_path)
        let s3 := fruits_to_remove.enum.foldl (fun acc p => slice_fruit acc p.2 (envs p.1)) s2
        { s3 with fruits := s3.fruits.filter (fun f => !check_sliceB f s2.swipe_path) }
    else s2
  else s

/-- The gameplay fields set by `FruitNinja.__init__` once the persisted
settings (game mode) and best score have been loaded, ending with
`apply_game_mode_difficulty`. -/
def initState (mode : String) (best : ℤ) : GameState :=
  apply_game_mode_difficulty
    { fruits := []
      bombs := []
      sliced_fruits := []
      particles := []
      score := 0
      best_score := best
      lives := MAX_LIVES
      game_over := false
      combo := 0
      combo_timer := 0
      combo_timeout := 120
      show_title_screen := true
      swipe_path := []
      swiping := false
      title_sliced := false
      bomb_flash_active := false
      bomb_flash_timer := 0
      bomb_flash_duration := FPS * (7 / 10)
      bomb_flash_center := none
      life_loss_duration := 36
      life_loss_timer := 0
      life_loss_index := none
      spawn_timer := 0
      spawn_interval := 60
      bomb_spawn_timer := 0
      bomb_spawn_interval := 300
      fruit_velocity_min := -16
      fruit_velocity_max := -11
      fruit_horizontal_velocity := 6
      bomb_velocity_min := -10
      bomb_velocity_max := -8
      spawn_acceleration := 1
      bomb_spawn_acceleration := 5
      game_mode := mode }

/-- Planar Euclidean distance, the notion of distance used throughout the
collision code. -/
noncomputable def euclDist (px py qx qy : ℝ) : ℝ :=
  Real.sqrt ((px - qx) * (px - qx) + (py - qy) * (py - qy))

/-- Modelled from the spec: the newest segment of the swipe path, the
segment ending at the newly appended point.  (The source has no such
notion; its loops run over all segments.) -/
def newestSegment (path : List (ℚ × ℚ)) : Option ((ℚ × ℚ) × (ℚ × ℚ)) :=
  match path.reverse with
  | b :: a :: _ => some (a, b)
  | _ => none

/-- Modelled from the spec: a slice test that consults only the newest
segment of the path. -/
def newestSegmentHit (cx cy r : ℚ) (path : List (ℚ × ℚ)) : Prop :=
  ∃ seg, newestSegment path = some seg ∧ segmentHit cx cy r seg.1 seg.2

/-- A fruit sitting at (300, 100) with the default radius 30. -/
def fruit0 : Fruit :=
  { x := 300, y := 100, vx := 0, vy := 0, angle := 0, rotation_speed := 0, radius := 30
    fruit_type := "apple", color := (255, 0, 0), hasSlicedImage := true, hasHalfImages := false }

/-- A fruit below the bottom boundary: after one physics step its top edge
is past `GAME_AREA_Y + GAME_AREA_HEIGHT`. -/
def fallenFruit (x : ℚ) : Fruit :=
  { x := x, y := 600, vx := 0, vy := 5, angle := 0, rotation_speed := 0, radius := 30
    fruit_type := "apple", color := (255, 0, 0), hasSlicedImage := true, hasHalfImages := false }

/-- A bomb already past the bottom boundary and its 60 pixel tolerance. -/
def bombOff : Bomb :=
  { x := 400, y := 700, vx := 0, vy := 5, angle := 0, rotation_speed := 0, radius := 30
    pulse_timer := 3 }

/-- A bomb sitting at (300, 100) with the fixed radius 30. -/
def bombHit : Bomb :=
  { x := 300, y := 100, vx := 0, vy := 0, angle := 0, rotation_speed := 0, radius := 30
    pulse_timer := 0 }

/-- Concrete random draws for one `slice_fruit` call. -/
def sliceEnv0 : SliceEnv :=
  { cosAngle := 1, sinAngle := 0, speed := 4, rotation_speed1 := 1, rotation_speed2 := -1
    fragOffX := 0, fragOffY := 0, parts := fun _ => { vx := 0, vy := 0, size := 4 } }

/-- Concrete random draws for one `update` tick. -/
def tickEnv0 : TickEnv :=
  { fruit := { x := 400, vx := 0, vy := -15, rotation_speed := 0, radius := 30
               fruit_type := "apple", hasSlicedImage := true, hasHalfImages := false }
    bomb := { x := 400, vx := 0, vy := -9, rotation_speed := 0 } }

/-- A fresh "Orta"-mode session right after a restart (playing state, all
counters cleared). -/
def freshOrta : GameState := reset_game (initState "Orta" 0)

/-- `freshOrta` already in game-over with lives exhausted, one tick away
from a fruit spawn. -/
def s3state : GameState := { freshOrta with game_over := true, lives := 0, spawn_timer := 54 }

/-- `freshOrta` with a single bomb that is far below the play field. -/
def s4state : GameState := { freshOrta with bombs := [bombOff] }

/-- `freshOrta` at one remaining life with two fruits about to cross the
bottom boundary in the same tick. -/
def s7state : GameState := { freshOrta with lives := 1, fruits := [fallenFruit 100, fallenFruit 200] }

/-- `freshOrta` mid-swipe: the recorded path already crossed `fruit0`
horizontally, and the next sample will move away vertically. -/
def s6state : GameState :=
  { freshOrta with swiping := true, fruits := [fruit0], swipe_path := [(100, 100), (500, 100)] }

/-- The pointer sample appended in the `s6state` scenario. -/
def pos6 : ℚ × ℚ := (500, 400)

/-- `freshOrta` mid-swipe with both a bomb and a fruit on the path about to
be completed by the next sample. -/
def s10state : GameState :=
  { freshOrta with
    swiping := true, fruits := [fruit0], bombs := [bombHit], swipe_path := [(100, 100)] }

/-- The pointer sample appended in the `s10state` scenario. -/
def pos10 : ℚ × ℚ := (500, 100)

/-- The squared clamped distance is a sum of two squares. -/
theorem distSqToClamped_nonneg (px py x1 y1 x2 y2 : ℚ) :
    0 ≤ distSqToClamped px py x1 y1 x2 y2 := by
  unfold distSqToClamped
  dsimp only
  split_ifs <;> exact add_nonneg (mul_self_nonneg _) (mul_self_nonneg _)
/-- On rational inputs, the source's real-valued distance is the square
root of the rational squared distance. -/
theorem point_line_distance_ratCast (px py x1 y1 x2 y2 : ℚ) :
    point_line_distance (px : ℝ) (py : ℝ) (x1 : ℝ) (y1 : ℝ) (x2 : ℝ) (y2 : ℝ) =
      Real.sqrt ((distSqToClamped px py x1 y1 x2 y2 : ℚ) : ℝ) := by
  unfold point_line_distance distSqToClamped
  dsimp only
  have hlen : (((x2 : ℝ) - x1) * ((x2 : ℝ) - x1) + ((y2 : ℝ) - y1) * ((y2 : ℝ) - y1))
      = (((x2 - x1) * (x2 - x1) + (y2 - y1) * (y2 - y1) : ℚ) : ℝ) := by push_cast; ring
  by_cases h0 : ((x2 - x1) * (x2 - x1) + (y2 - y1) * (y2 - y1) : ℚ) = 0
  · rw [if_pos (by rw [hlen]; exact_mod_cast h0), if_pos h0]
    congr 1
    push_cast
    ring
  · have h0R : (((x2 : ℝ) - x1) * ((x2 : ℝ) - x1) + ((y2 : ℝ) - y1) * ((y2 : ℝ) - y1)) ≠ 0 := by
      rw [hlen]; exact_mod_cast h0
    rw [if_neg h0R, if_neg h0]
    have hparam :
        (((px : ℝ) - x1) * ((x2 : ℝ) - x1) + ((py : ℝ) - y1) * ((y2 : ℝ) - y1)) /
            (((x2 : ℝ) - x1) * ((x2 : ℝ) - x1) + ((y2 : ℝ) - y1) * ((y2 : ℝ) - y1))
          = ((((px - x1) * (x2 - x1) + (py - y1) * (y2 - y1)) /
              ((x2 - x1) * (x2 - x1) + (y2 - y1) * (y2 - y1)) : ℚ) : ℝ) := by
      push_cast; ring_nf
    rw [hparam]
    by_cases hlt : (((px - x1) * (x2 - x1) + (py - y1) * (y2 - y1)) /
        ((x2 - x1) * (x2 - x1) + (y2 - y1) * (y2 - y1)) : ℚ) < 0
    · rw [if_pos (by exact_mod_cast hlt), if_pos (by exact_mod_cast hlt),
        if_pos hlt, if_pos hlt]
      congr 1
      push_cast; ring
    · have hltR : ¬ ((((px - x1) * (x2 - x1) + (py - y1) * (y2 - y1)) /
          ((x2 - x1) * (x2 - x1) + (y2 - y1) * (y2 - y1)) : ℚ) : ℝ) < 0 := by
        exact_mod_cast hlt
      rw [if_neg hltR, if_neg hltR, if_neg hlt, if_neg hlt]
      by_cases hgt : (1 : ℚ) < ((px - x1) * (x2 - x1) + (py - y1) * (y2 - y1)) /
          ((x2 - x1) * (x2 - x1) + (y2 - y1) * (y2 - y1))
      · rw [if_pos (by exact_mod_cast hgt), if_pos (by exact_mod_cast hgt),
          if_pos hgt, if_pos hgt]
        congr 1
        push_cast; ring
      · have hgtR : ¬ (1 : ℝ) < ((((px - x1) * (x2 - x1) + (py - y1) * (y2 - y1)) /
            ((x2 - x1) * (x2 - x1) + (y2 - y1) * (y2 - y1)) : ℚ) : ℝ) := by
          exact_mod_cast hgt
        rw [if_neg hgtR, if_neg hgtR, if_neg hgt, if_neg hgt]
        congr 1
        push_cast; ring
/-- The rational test decides the source's real-valued test. -/
theorem segmentHitB_iff (cx cy r : ℚ) (a b : ℚ × ℚ) :
    segmentHitB cx cy r a b = true ↔ segmentHit cx cy r a b := by
  unfold segmentHitB segmentHit
  rw [point_line_distance_ratCast]
  simp only [Bool.and_eq_true, decide_eq_true_eq]
  constructor
  · rintro ⟨hr, hlt⟩
    have hrR : (0 : ℝ) < (r : ℝ) := by exact_mod_cast hr
    rw [Real.sqrt_lt' hrR, pow_two]
    exact_mod_cast hlt
  · intro h
    have hrR : (0 : ℝ) < (r : ℝ) := lt_of_le_of_lt (Real.sqrt_nonneg _) h
    have hq := (Real.sqrt_lt' hrR).mp h
    rw [pow_two] at hq
    exact ⟨by exact_mod_cast hrR, by exact_mod_cast hq⟩
/-- `check_sliceB` decides `check_slice`. -/
theorem check_sliceB_iff (fruit : Fruit) (path : List (ℚ × ℚ)) :
    check_sliceB fruit path = true ↔ check_slice fruit path := by
  unfold check_sliceB check_slice
  simp only [List.any_eq_true, segmentHitB_iff]
/-- `check_bomb_sliceB` decides `check_bomb_slice`. -/
theorem check_bomb_sliceB_iff (bomb : Bomb) (path : List (ℚ × ℚ)) :
    check_bomb_sliceB bomb path = true ↔ check_bomb_slice bomb path := by
  unfold check_bomb_sliceB check_bomb_slice
  simp only [List.any_eq_true, segmentHitB_iff]
/-- `point_line_distance` with its local bindings expanded. -/
theorem point_line_distance_def (px py x1 y1 x2 y2 : ℝ) :
    point_line_distance px py x1 y1 x2 y2 =
      if (x2 - x1) * (x2 - x1) + (y2 - y1) * (y2 - y1) = 0 then
        Real.sqrt ((px - x1) * (px - x1) + (py - y1) * (py - y1))
      else
        Real.sqrt
          ((px - (if ((px - x1) * (x2 - x1) + (py - y1) * (y2 - y1)) /
                ((x2 - x1) * (x2 - x1) + (y2 - y1) * (y2 - y1)) < 0 then x1
              else if 1 < ((px - x1) * (x2 - x1) + (py - y1) * (y2 - y1)) /
                ((x2 - x1) * (x2 - x1) + (y2 - y1) * (y2 - y1)) then x2
              else x1 + ((px - x1) * (x2 - x1) + (py - y1) * (y2 - y1)) /
                ((x2 - x1) * (x2 - x1) + (y2 - y1) * (y2 - y1)) * (x2 - x1))) *
            (px - (if ((px - x1) * (x2 - x1) + (py - y1) * (y2 - y1)) /
                ((x2 - x1) * (x2 - x1) + (y2 - y1) * (y2 - y1)) < 0 then x1
              else if 1 < ((px - x1) * (x2 - x1) + (py - y1) * (y2 - y1)) /
                ((x2 - x1) * (x2 - x1) + (y2 - y1) * (y2 - y1)) then x2
              else x1 + ((px - x1) * (x2 - x1) + (py - y1) * (y2 - y1)) /
                ((x2 - x1) * (x2 - x1) + (y2 - y1) * (y2 - y1)) * (x2 - x1))) +
          (py - (if ((px - x1) * (x2 - x1) + (py - y1) * (y2 - y1)) /
                ((x2 - x1) * (x2 - x1) + (y2 - y1) * (y2 - y1)) < 0 then y1
              else if 1 < ((px - x1) * (x2 - x1) + (py - y1) * (y2 - y1)) /
                ((x2 - x1) * (x2 - x1) + (y2 - y1) * (y2 - y1)) then y2
              else y1 + ((px - x1) * (x2 - x1) + (py - y1) * (y2 - y1)) /
                ((x2 - x1) * (x2 - x1) + (y2 - y1) * (y2 - y1)) * (y2 - y1))) *
            (py - (if ((px - x1) * (x2 - x1) + (py - y1) * (y2 - y1)) /
                ((x2 - x1) * (x2 - x1) + (y2 - y1) * (y2 - y1)) < 0 then y1
              else if 1 < ((px - x1) * (x2 - x1) + (py - y1) * (y2 - y1)) /
                ((x2 - x1) * (x2 - x1) + (y2 - y1) * (y2 - y1)) then y2
              else y1 + ((px - x1) * (x2 - x1) + (py - y1) * (y2 - y1)) /
                ((x2 - x1) * (x2 - x1) + (y2 - y1) * (y2 - y1)) * (y2 - y1)))) := rfl
/-- C5: `point_line_distance` attains the minimum Euclidean distance from
the point to the segment: its value is the distance to some segment point
(the clamped projection), it is a lower bound on the distance to every
segment point, and for a degenerate segment it is the point-to-point
distance. -/
theorem point_line_distance_is_min (px py x1 y1 x2 y2 : ℝ) :
    (∃ t, 0 ≤ t ∧ t ≤ 1 ∧
        point_line_distance px py x1 y1 x2 y2 =
          euclDist px py (x1 + t * (x2 - x1)) (y1 + t * (y2 - y1))) ∧
    (∀ t, 0 ≤ t → t ≤ 1 →
        point_line_distance px py x1 y1 x2 y2 ≤
          euclDist px py (x1 + t * (x2 - x1)) (y1 + t * (y2 - y1))) ∧
    (x1 = x2 → y1 = y2 →
        point_line_distance px py x1 y1 x2 y2 = euclDist px py x1 y1) := by
  by_cases hL : (x2 - x1) * (x2 - x1) + (y2 - y1) * (y2 - y1) = 0
  · have hx : x2 = x1 := by
      nlinarith [mul_self_nonneg (x2 - x1), mul_self_nonneg (y2 - y1)]
    have hy : y2 = y1 := by
      nlinarith [mul_self_nonneg (x2 - x1), mul_self_nonneg (y2 - y1)]
    have hpld : point_line_distance px py x1 y1 x2 y2 =
        Real.sqrt ((px - x1) * (px - x1) + (py - y1) * (py - y1)) := by
      rw [point_line_distance_def, if_pos hL]
    have hseg : ∀ t : ℝ, euclDist px py (x1 + t * (x2 - x1)) (y1 + t * (y2 - y1))
        = Real.sqrt ((px - x1) * (px - x1) + (py - y1) * (py - y1)) := by
      intro t
      unfold euclDist
      rw [hx, hy]
      congr 1
      ring
    exact ⟨⟨0, le_refl 0, zero_le_one, by rw [hpld, hseg]⟩,
      fun t _ _ => le_of_eq (by rw [hpld, hseg]),
      fun _ _ => by rw [hpld]; rfl⟩
  · have hLpos : 0 < (x2 - x1) * (x2 - x1) + (y2 - y1) * (y2 - y1) :=
      lt_of_le_of_ne (add_nonneg (mul_self_nonneg _) (mul_self_nonneg _)) (Ne.symm hL)
    rw [point_line_distance_def, if_neg hL]
    set par := ((px - x1) * (x2 - x1) + (py - y1) * (y2 - y1)) /
        ((x2 - x1) * (x2 - x1) + (y2 - y1) * (y2 - y1)) with hpar
    have hins : ∀ u : ℝ,
        (px - (x1 + u * (x2 - x1))) * (px - (x1 + u * (x2 - x1))) +
          (py - (y1 + u * (y2 - y1))) * (py - (y1 + u * (y2 - y1)))
        = ((x2 - x1) * (x2 - x1) + (y2 - y1) * (y2 - y1)) * (u - par) ^ 2 +
          ((px - x1) * (px - x1) + (py - y1) * (py - y1) -
            ((px - x1) * (x2 - x1) + (py - y1) * (y2 - y1)) ^ 2 /
              ((x2 - x1) * (x2 - x1) + (y2 - y1) * (y2 - y1))) := by
      intro u
      rw [hpar]
      field_simp
      ring
    by_cases hlt : par < 0
    · simp only [if_pos hlt]
      refine ⟨⟨0, le_refl 0, zero_le_one, by unfold euclDist; congr 1; ring⟩, ?_, ?_⟩
      · intro t ht0 ht1
        unfold euclDist
        apply Real.sqrt_le_sqrt
        have hrw : (px - x1) * (px - x1) + (py - y1) * (py - y1)
            = (px - (x1 + 0 * (x2 - x1))) * (px - (x1 + 0 * (x2 - x1))) +
              (py - (y1 + 0 * (y2 - y1))) * (py - (y1 + 0 * (y2 - y1))) := by ring
        rw [hrw, hins 0, hins t]
        have hsq : (0 - par) ^ 2 ≤ (t - par) ^ 2 := by
          nlinarith [mul_nonneg ht0 (by linarith : (0 : ℝ) ≤ t - 2 * par)]
        linarith [mul_le_mul_of_nonneg_left hsq (le_of_lt hLpos)]
      · intro hxe hye
        exfalso
        apply hL
        rw [hxe, hye]
        ring
    · by_cases hgt : 1 < par
      · simp only [if_neg hlt, if_pos hgt]
        refine ⟨⟨1, zero_le_one, le_refl 1, by unfold euclDist; congr 1; ring⟩, ?_, ?_⟩
        · intro t ht0 ht1
          unfold euclDist
          apply Real.sqrt_le_sqrt
          have hrw : (px - x2) * (px - x2) + (py - y2) * (py - y2)
              = (px - (x1 + 1 * (x2 - x1))) * (px - (x1 + 1 * (x2 - x1))) +
                (py - (y1 + 1 * (y2 - y1))) * (py - (y1 + 1 * (y2 - y1))) := by ring
          rw [hrw, hins 1, hins t]
          have hsq : (1 - par) ^ 2 ≤ (t - par) ^ 2 := by
            nlinarith [mul_nonneg (by linarith : (0 : ℝ) ≤ 1 - t)
              (by linarith : (0 : ℝ) ≤ 2 * par - 1 - t)]
          linarith [mul_le_mul_of_nonneg_left hsq (le_of_lt hLpos)]
        · intro hxe hye
          exfalso
          apply hL
          rw [hxe, hye]
          ring
      · simp only [if_neg hlt, if_neg hgt]
        have hp0 : 0 ≤ par := not_lt.mp hlt
        have hp1 : par ≤ 1 := not_lt.mp hgt
        refine ⟨⟨par, hp0, hp1, rfl⟩, ?_, ?_⟩
        · intro t ht0 ht1
          unfold euclDist
          apply Real.sqrt_le_sqrt
          rw [hins par, hins t]
          have hsq : (par - par) ^ 2 ≤ (t - par) ^ 2 := by
            nlinarith [sq_nonneg (t - par)]
          linarith [mul_le_mul_of_nonneg_left hsq (le_of_lt hLpos)]
        · intro hxe hye
          exfalso
          apply hL
          rw [hxe, hye]
          ring

/-- The mode string "Orta" is not "Kolay" (used to reduce difficulty ifs). -/
theorem orta_not_kolay : (("Orta" : String) = "Kolay") = False := by decide

/-- The mode string "Orta" is not "Zor". -/
theorem orta_not_zor : (("Orta" : String) = "Zor") = False := by decide

/-- The restarted "Orta" session computed to a record literal. -/
theorem freshOrta_eq : freshOrta =
    { fruits := [], bombs := [], sliced_fruits := [], particles := [], score := 0, best_score := 0,
      lives := 3, game_over := false, combo := 0, combo_timer := 0, combo_timeout := 120,
      show_title_screen := false, swipe_path := [], swiping := false, title_sliced := false,
      bomb_flash_active := false, bomb_flash_timer := 0, bomb_flash_duration := 42,
      bomb_flash_center := none, life_loss_duration := 36, life_loss_timer := 0,
      life_loss_index := none, spawn_timer := 0, spawn_interval := 55, bomb_spawn_timer := 0,
      bomb_spawn_interval := 280, fruit_velocity_min := -18, fruit_velocity_max := -12,
      fruit_horizontal_velocity := 7, bomb_velocity_min := -11, bomb_velocity_max := -9,
      spawn_acceleration := 6 / 5, bomb_spawn_acceleration := 6, game_mode := "Orta" } := by
  norm_num [freshOrta, reset_game, initState, apply_game_mode_difficulty,
    orta_not_kolay, orta_not_zor, MAX_LIVES, FPS]

/-- `missStep` decrements lives by one and leaves the combo state alone. -/
theorem missStep_proj (s : GameState) :
    (missStep s).combo = s.combo ∧ (missStep s).combo_timer = s.combo_timer ∧
    (missStep s).lives = s.lives - 1 := by
  unfold missStep
  dsimp only
  split_ifs <;> exact ⟨rfl, rfl, rfl⟩

/-- Folding `missStep` over a list leaves the combo counter alone. -/
theorem foldl_missStep_combo (l : List Fruit) (s : GameState) :
    (l.foldl (fun acc _ => missStep acc) s).combo = s.combo := by
  induction l generalizing s with
  | nil => rfl
  | cons a t ih => rw [List.foldl_cons, ih, (missStep_proj s).1]

/-- Folding `missStep` over a list leaves the combo countdown alone. -/
theorem foldl_missStep_combo_timer (l : List Fruit) (s : GameState) :
    (l.foldl (fun acc _ => missStep acc) s).combo_timer = s.combo_timer := by
  induction l generalizing s with
  | nil => rfl
  | cons a t ih => rw [List.foldl_cons, ih, (missStep_proj s).2.1]

/-- Folding `missStep` over a list decrements lives once per element. -/
theorem foldl_missStep_lives (l : List Fruit) (s : GameState) :
    (l.foldl (fun acc _ => missStep acc) s).lives = s.lives - l.length := by
  induction l generalizing s with
  | nil => simp
  | cons a t ih =>
    rw [List.foldl_cons, ih, (missStep_proj s).2.2]
    push_cast [List.length_cons]
    ring

/-- The fruit-spawn phase leaves combo state and lives alone. -/
theorem spawnFruitPhase_proj (s : GameState) (env : TickEnv) :
    (spawnFruitPhase s env).combo = s.combo ∧
    (spawnFruitPhase s env).combo_timer = s.combo_timer ∧
    (spawnFruitPhase s env).lives = s.lives := by
  unfold spawnFruitPhase spawn_fruit
  dsimp only
  split_ifs <;> exact ⟨rfl, rfl, rfl⟩

/-- The bomb-spawn phase leaves combo state and lives alone. -/
theorem spawnBombPhase_proj (s : GameState) (env : TickEnv) :
    (spawnBombPhase s env).combo = s.combo ∧
    (spawnBombPhase s env).combo_timer = s.combo_timer ∧
    (spawnBombPhase s env).lives = s.lives := by
  unfold spawnBombPhase spawn_bomb
  dsimp only
  split_ifs <;> exact ⟨rfl, rfl, rfl⟩

/-- The fruit phase leaves combo state alone and decrements lives once per
missed fruit. -/
theorem fruitPhase_proj (s : GameState) :
    (fruitPhase s).combo = s.combo ∧
    (fruitPhase s).combo_timer = s.combo_timer ∧
    (fruitPhase s).lives = s.lives - (missedAfterMove s).length := by
  unfold fruitPhase missedAfterMove
  dsimp only
  refine ⟨?_, ?_, ?_⟩
  · rw [foldl_missStep_combo]
  · rw [foldl_missStep_combo_timer]
  · rw [foldl_missStep_lives]

/-- The bomb phase leaves combo state and lives alone. -/
theorem bombPhase_proj (s : GameState) :
    (bombPhase s).combo = s.combo ∧ (bombPhase s).combo_timer = s.combo_timer ∧
    (bombPhase s).lives = s.lives :=
  ⟨rfl, rfl, rfl⟩

/-- The sliced-fruit phase leaves combo state and lives alone. -/
theorem slicedPhase_proj (s : GameState) :
    (slicedPhase s).combo = s.combo ∧ (slicedPhase s).combo_timer = s.combo_timer ∧
    (slicedPhase s).lives = s.lives :=
  ⟨rfl, rfl, rfl⟩

/-- The particle phase leaves combo state and lives alone. -/
theorem particlePhase_proj (s : GameState) :
    (particlePhase s).combo = s.combo ∧ (particlePhase s).combo_timer = s.combo_timer ∧
    (particlePhase s).lives = s.lives :=
  ⟨rfl, rfl, rfl⟩

/-- The bomb-flash branch leaves combo state and lives alone. -/
theorem flashTick_proj (s : GameState) :
    (flashTick s).combo = s.combo ∧ (flashTick s).combo_timer = s.combo_timer ∧
    (flashTick s).lives = s.lives := by
  unfold flashTick
  dsimp only
  split_ifs <;> exact ⟨rfl, rfl, rfl⟩

/-- `slice_fruit` never touches the live fruit collection. -/
theorem slice_fruit_fruits (s : GameState) (fruit : Fruit) (e : SliceEnv) :
    (slice_fruit s fruit e).fruits = s.fruits := by
  unfold slice_fruit
  dsimp only
  split_ifs <;> rfl

/-- Folding `slice_fruit` over hit fruits never touches the collection. -/
theorem foldl_slice_fruit_fruits (l : List (ℕ × Fruit)) (envs : ℕ → SliceEnv) (s : GameState) :
    (l.foldl (fun acc p => slice_fruit acc p.2 (envs p.1)) s).fruits = s.fruits := by
  induction l generalizing s with
  | nil => rfl
  | cons a t ih => rw [List.foldl_cons, ih, slice_fruit_fruits]

/-- C1 (counterexample): on the first slice of a fresh session the combo
becomes 1 but the score rises by 2, not by the claimed
`1 + max(0, combo - 1) = 1`: the source computes `max(1, combo - 1)`. -/
theorem slice_fruit_first_slice_scores_two :
    (slice_fruit freshOrta fruit0 sliceEnv0).combo = 1 ∧
    (slice_fruit freshOrta fruit0 sliceEnv0).score ≠
      freshOrta.score +
        (1 + max 0 (((slice_fruit freshOrta fruit0 sliceEnv0).combo : ℤ) - 1)) := by
  constructor
  · norm_num [slice_fruit, freshOrta_eq, fruit0]
  · norm_num [slice_fruit, freshOrta_eq, fruit0]

/-- C1 (amended): each fruit slice increments the combo, reloads the combo
countdown, and adds `1 + max(1, combo - 1)` points to the score, where
`combo` is the counter's value after the increment; slices at combo
1, 2, 3 therefore award 2, 2, 3 points. -/
theorem slice_fruit_scoring (s : GameState) (fruit : Fruit) (e : SliceEnv) :
    (slice_fruit s fruit e).combo = s.combo + 1 ∧
    (slice_fruit s fruit e).combo_timer = s.combo_timeout ∧
    (slice_fruit s fruit e).score =
      s.score + (1 + max 1 (((slice_fruit s fruit e).combo : ℤ) - 1)) := by
  unfold slice_fruit
  dsimp only
  split_ifs <;> exact ⟨rfl, rfl, rfl⟩

/-- C2 (code evaluation): a tick of `update` never changes the combo
counter or its countdown, in every state and for every spawn draw: the
combo decay described by the spec has no implementation, so a combo never
expires and a later slice continues it instead of restarting at 1. -/
theorem update_never_decays_combo (s : GameState) (env : TickEnv) :
    (update s env).combo = s.combo ∧ (update s env).combo_timer = s.combo_timer := by
  unfold update
  split_ifs
  · exact ⟨rfl, rfl⟩
  · exact ⟨(flashTick_proj s).1, (flashTick_proj s).2.1⟩
  · constructor
    · rw [(particlePhase_proj _).1, (slicedPhase_proj _).1, (bombPhase_proj _).1,
        (fruitPhase_proj _).1, (spawnBombPhase_proj _ _).1, (spawnFruitPhase_proj _ _).1]
    · rw [(particlePhase_proj _).2.1, (slicedPhase_proj _).2.1, (bombPhase_proj _).2.1,
        (fruitPhase_proj _).2.1, (spawnBombPhase_proj _ _).2.1, (spawnFruitPhase_proj _ _).2.1]

/-- C3 (code evaluation at the failing input): in a game-over state with
lives exhausted and no bomb flash, the next `update` tick still spawns a
fruit: the early return of `update` checks only the title screen. -/
theorem update_spawns_after_game_over :
    s3state.game_over = true ∧ s3state.lives = 0 ∧ s3state.bomb_flash_active = false ∧
    (update s3state tickEnv0).fruits.length = s3state.fruits.length + 1 := by
  refine ⟨?_, ?_, ?_, ?_⟩ <;>
    norm_num [update, s3state, freshOrta_eq, spawnFruitPhase, spawnBombPhase, spawn_fruit,
      spawn_bomb, fruitPhase, missedAfterMove, missStep, bombPhase, slicedPhase, particlePhase,
      Fruit.update, Fruit.is_missed, tickEnv0, GRAVITY, SCREEN_WIDTH, GAME_AREA_Y,
      GAME_AREA_HEIGHT, TOP_BAR_HEIGHT, BOTTOM_BAR_HEIGHT, SCREEN_HEIGHT, orta_not_kolay,
      orta_not_zor]

/-- C4 (code evaluation at the failing input): a bomb below the bottom
boundary and past the 60 px tolerance (`is_off_screen` holds) survives the
tick update — `update` only applies physics to bombs, `is_off_screen` has
no caller, and no removal happens; lives are untouched either way. -/
theorem update_keeps_offscreen_bomb :
    Bomb.is_off_screen bombOff = true ∧
    (update s4state tickEnv0).bombs = [Bomb.update bombOff] ∧
    (update s4state tickEnv0).lives = s4state.lives := by
  refine ⟨?_, ?_, ?_⟩ <;>
    norm_num [update, s4state, freshOrta_eq, spawnFruitPhase, spawnBombPhase, spawn_fruit,
      spawn_bomb, fruitPhase, missedAfterMove, missStep, bombPhase, slicedPhase, particlePhase,
      Fruit.update, Fruit.is_missed, Bomb.is_off_screen, bombOff, tickEnv0, GRAVITY,
      SCREEN_WIDTH, GAME_AREA_Y, GAME_AREA_HEIGHT, TOP_BAR_HEIGHT, BOTTOM_BAR_HEIGHT,
      SCREEN_HEIGHT, orta_not_kolay, orta_not_zor]

/-- C7 (counterexample): with one life left and two fruits crossing the
bottom boundary on the same tick, lives drop to -1: the source has no
lower clamp on `lives`. -/
theorem update_lives_go_negative :
    s7state.lives = 1 ∧ (update s7state tickEnv0).lives = -1 := by
  constructor
  · norm_num [s7state, freshOrta_eq]
  · norm_num [update, s7state, freshOrta_eq, spawnFruitPhase, spawnBombPhase, spawn_fruit,
      spawn_bomb, fruitPhase, missedAfterMove, missStep, bombPhase, slicedPhase, particlePhase,
      Fruit.update, Fruit.is_missed, fallenFruit, tickEnv0, GRAVITY, SCREEN_WIDTH, GAME_AREA_Y,
      GAME_AREA_HEIGHT, TOP_BAR_HEIGHT, BOTTOM_BAR_HEIGHT, SCREEN_HEIGHT, MAX_LIVES,
      orta_not_kolay, orta_not_zor]

/-- C7 (amended): lives start at MAX_LIVES on session start and on restart,
and each playing tick decreases them by exactly the number of fruits that
crossed the bottom boundary on that tick — with no lower clamp, so several
misses in one tick can push lives below 0. -/
theorem update_lives_decrement (s : GameState) (env : TickEnv) (mode : String) (best : ℤ)
    (ht : s.show_title_screen = false)
    (hf : (s.game_over && s.bomb_flash_active) = false) :
    (update s env).lives =
      s.lives - (missedAfterMove (spawnBombPhase (spawnFruitPhase s env) env)).length ∧
    (initState mode best).lives = MAX_LIVES ∧
    (reset_game s).lives = MAX_LIVES := by
  refine ⟨?_, ?_, ?_⟩
  · unfold update
    rw [if_neg (by simp [ht]), if_neg (by simp [hf])]
    rw [(particlePhase_proj _).2.2, (slicedPhase_proj _).2.2, (bombPhase_proj _).2.2,
      (fruitPhase_proj _).2.2, (spawnBombPhase_proj _ _).2.2, (spawnFruitPhase_proj _ _).2.2]
  · unfold initState apply_game_mode_difficulty
    dsimp only
    split_ifs <;> rfl
  · unfold reset_game apply_game_mode_difficulty
    dsimp only
    split_ifs <;> rfl

/-- C7 witness: the amended lives law applied to the two-miss state. -/
theorem update_lives_decrement_witness :
    (update s7state tickEnv0).lives =
      s7state.lives -
        (missedAfterMove (spawnBombPhase (spawnFruitPhase s7state tickEnv0) tickEnv0)).length ∧
    (initState "Orta" 0).lives = MAX_LIVES ∧
    (reset_game s7state).lives = MAX_LIVES :=
  update_lives_decrement s7state tickEnv0 "Orta" 0
    (by norm_num [s7state, freshOrta_eq]) (by norm_num [s7state, freshOrta_eq])

/-- C8: slicing a bomb immediately sets game over, keys the flash to the
bomb's position with a fresh timer, clears the fruit and bomb collections,
and leaves split-halves, particles, score, best score and lives unchanged,
in every state (hence regardless of score, lives or combo). -/
theorem start_bomb_flash_effect (s : GameState) (b : Bomb) :
    (start_bomb_flash s b).game_over = true ∧
    (start_bomb_flash s b).bomb_flash_active = true ∧
    (start_bomb_flash s b).bomb_flash_timer = 0 ∧
    (start_bomb_flash s b).bomb_flash_center = some (b.x, b.y) ∧
    (start_bomb_flash s b).fruits = [] ∧
    (start_bomb_flash s b).bombs = [] ∧
    (start_bomb_flash s b).sliced_fruits = s.sliced_fruits ∧
    (start_bomb_flash s b).particles = s.particles ∧
    (start_bomb_flash s b).score = s.score ∧
    (start_bomb_flash s b).best_score = s.best_score ∧
    (start_bomb_flash s b).lives = s.lives := by
  unfold start_bomb_flash
  exact ⟨rfl, rfl, rfl, rfl, rfl, rfl, rfl, rfl, rfl, rfl, rfl⟩

/-- C9: restarting resets lives, score, combo and its countdown, empties
every entity collection, restores the current mode's initial spawn
intervals, and is idempotent — for every prior state, in particular from
game over. -/
theorem reset_game_spec (s : GameState) :
    (reset_game s).lives = MAX_LIVES ∧
    (reset_game s).score = 0 ∧
    (reset_game s).combo = 0 ∧
    (reset_game s).combo_timer = 0 ∧
    (reset_game s).fruits = [] ∧
    (reset_game s).bombs = [] ∧
    (reset_game s).sliced_fruits = [] ∧
    (reset_game s).particles = [] ∧
    (reset_game s).spawn_interval =
      (if s.game_mode = "Kolay" then 90 else if s.game_mode = "Zor" then 35 else 55) ∧
    (reset_game s).bomb_spawn_interval =
      (if s.game_mode = "Kolay" then 9999 else if s.game_mode = "Zor" then 150 else 280) ∧
    reset_game (reset_game s) = reset_game s := by
  unfold reset_game apply_game_mode_difficulty
  dsimp only
  split_ifs <;> exact ⟨rfl, rfl, rfl, rfl, rfl, rfl, rfl, rfl, rfl, rfl, rfl⟩

/-- C6 (counterexample): a pointer-move sample slices a fruit that only an
older segment of the grown path crosses: the newest segment stays 200 px
from the fruit center, yet the handler registers the hit (combo 0 → 1), so
the resolver does not test only the newest segment. -/
theorem resolver_uses_old_segments :
    s6state.combo = 0 ∧
    (processMotion s6state pos6 (fun _ => sliceEnv0)).combo = 1 ∧
    ¬ newestSegmentHit fruit0.x fruit0.y fruit0.radius (s6state.swipe_path ++ [pos6]) := by
  refine ⟨by norm_num [s6state, freshOrta_eq], ?_, ?_⟩
  · have hB : check_sliceB fruit0 [(100, 100), (500, 100), ((500 : ℚ), (400 : ℚ))] = true := by
      norm_num [check_sliceB, pathSegments, segmentHitB, distSqToClamped, fruit0]
    have hfil : List.filter
        (fun f => check_sliceB f [(100, 100), (500, 100), ((500 : ℚ), (400 : ℚ))])
        [fruit0] = [fruit0] := by
      simp [hB]
    simp only [processMotion]
    simp only [s6state, freshOrta_eq]
    norm_num [pos6, hfil, List.enum, List.enumFrom, List.foldl_cons, List.foldl_nil]
    norm_num [slice_fruit, fruit0, mkSlicedFruit, Particle.init, sliceEnv0]
  · rintro ⟨seg, hseg, hhit⟩
    have hns : newestSegment (s6state.swipe_path ++ [pos6]) =
        some ((((500 : ℚ), (100 : ℚ))), (((500 : ℚ), (400 : ℚ)))) := by
      norm_num [newestSegment, s6state, freshOrta_eq, pos6]
    rw [hns] at hseg
    have hseg2 : seg = ((((500 : ℚ), (100 : ℚ))), (((500 : ℚ), (400 : ℚ)))) := by
      injection hseg with h
      exact h.symm
    subst hseg2
    have hB := (segmentHitB_iff fruit0.x fruit0.y fruit0.radius
      (((500 : ℚ), (100 : ℚ))) (((500 : ℚ), (400 : ℚ)))).mpr hhit
    have hF : segmentHitB fruit0.x fruit0.y fruit0.radius
        (((500 : ℚ), (100 : ℚ))) (((500 : ℚ), (400 : ℚ))) = false := by
      norm_num [segmentHitB, distSqToClamped, fruit0]
    rw [hF] at hB
    exact Bool.false_ne_true hB

/-- C6 (amended): on each pointer-move sample during play, every live fruit
whose distance to ANY segment of the grown path is below its radius is
sliced and removed — the resolver walks the whole path, not only the
newest segment. -/
theorem processMotion_slices_any_segment_hit (s : GameState) (pos : ℚ × ℚ)
    (envs : ℕ → SliceEnv) (f : Fruit)
    (hsw : s.swiping = true) (hg : s.game_over = false) (ht : s.show_title_screen = false)
    (hb : ∀ b ∈ s.bombs, ¬ check_bomb_slice b (s.swipe_path ++ [pos]))
    (_hf : f ∈ s.fruits) (hhit : check_slice f (s.swipe_path ++ [pos])) :
    f ∉ (processMotion s pos envs).fruits := by
  unfold processMotion
  rw [if_pos hsw]
  dsimp only
  rw [ht, hg]
  simp only [Bool.false_and, Bool.not_false, Bool.and_self, Bool.false_eq_true, if_false, if_true]
  have hnone : List.find? (fun b => check_bomb_sliceB b (s.swipe_path ++ [pos])) s.bombs
      = none := by
    apply List.find?_eq_none.mpr
    intro b hbmem hcontra
    exact hb b hbmem ((check_bomb_sliceB_iff _ _).mp hcontra)
  rw [hnone]
  dsimp only
  rw [foldl_slice_fruit_fruits]
  intro hmem
  obtain ⟨-, hcond⟩ := List.mem_filter.mp hmem
  have hT : check_sliceB f (s.swipe_path ++ [pos]) = true := (check_sliceB_iff _ _).mpr hhit
  simp [hT] at hcond

/-- C6 witness: the fruit crossed only by the older segment is removed. -/
theorem processMotion_slices_any_segment_hit_witness :
    fruit0 ∉ (processMotion s6state pos6 (fun _ => sliceEnv0)).fruits :=
  processMotion_slices_any_segment_hit s6state pos6 (fun _ => sliceEnv0) fruit0
    (by norm_num [s6state, freshOrta_eq])
    (by norm_num [s6state, freshOrta_eq])
    (by norm_num [s6state, freshOrta_eq])
    (by intro b hbmem; norm_num [s6state, freshOrta_eq] at hbmem)
    (by norm_num [s6state, freshOrta_eq])
    ((check_sliceB_iff _ _).mp (by
      norm_num [check_sliceB, pathSegments, segmentHitB, distSqToClamped, fruit0, s6state,
        freshOrta_eq, pos6]))

/-- C10: when a pointer-move sample's path hits some live bomb during play,
the bomb takes priority: the handler transitions straight to the bomb
flash and game over, and no fruit-slice logic runs on that sample — score,
combo, split-halves and particles are all left unchanged. -/
theorem processMotion_bomb_priority (s : GameState) (pos : ℚ × ℚ) (envs : ℕ → SliceEnv)
    (hsw : s.swiping = true) (hg : s.game_over = false) (ht : s.show_title_screen = false)
    (hb : ∃ b ∈ s.bombs, check_bomb_slice b (s.swipe_path ++ [pos])) :
    (processMotion s pos envs).game_over = true ∧
    (processMotion s pos envs).bomb_flash_active = true ∧
    (processMotion s pos envs).score = s.score ∧
    (processMotion s pos envs).combo = s.combo ∧
    (processMotion s pos envs).sliced_fruits = s.sliced_fruits ∧
    (processMotion s pos envs).particles = s.particles ∧
    (processMotion s pos envs).lives = s.lives ∧
    (processMotion s pos envs).best_score = s.best_score := by
  unfold processMotion
  rw [if_pos hsw]
  dsimp only
  rw [ht, hg]
  simp only [Bool.false_and, Bool.not_false, Bool.and_self, Bool.false_eq_true, if_false, if_true]
  obtain ⟨b, hbmem, hbhit⟩ := hb
  have hsome : (List.find? (fun b => check_bomb_sliceB b (s.swipe_path ++ [pos]))
      s.bombs).isSome = true := by
    rw [List.find?_isSome]
    exact ⟨b, hbmem, (check_bomb_sliceB_iff _ _).mpr hbhit⟩
  obtain ⟨b2, hfind⟩ := Option.isSome_iff_exists.mp hsome
  rw [hfind]
  unfold start_bomb_flash
  exact ⟨rfl, rfl, rfl, rfl, rfl, rfl, rfl, rfl⟩

/-- C10 witness: a sample crossing both `bombHit` and `fruit0` triggers the
flash and leaves score, combo, split-halves and particles untouched. -/
theorem processMotion_bomb_priority_witness :
    (processMotion s10state pos10 (fun _ => sliceEnv0)).game_over = true ∧
    (processMotion s10state pos10 (fun _ => sliceEnv0)).bomb_flash_active = true ∧
    (processMotion s10state pos10 (fun _ => sliceEnv0)).score = s10state.score ∧
    (processMotion s10state pos10 (fun _ => sliceEnv0)).combo = s10state.combo ∧
    (processMotion s10state pos10 (fun _ => sliceEnv0)).sliced_fruits = s10state.sliced_fruits ∧
    (processMotion s10state pos10 (fun _ => sliceEnv0)).particles = s10state.particles ∧
    (processMotion s10state pos10 (fun _ => sliceEnv0)).lives = s10state.lives ∧
    (processMotion s10state pos10 (fun _ => sliceEnv0)).best_score = s10state.best_score :=
  processMotion_bomb_priority s10state pos10 (fun _ => sliceEnv0)
    (by norm_num [s10state, freshOrta_eq])
    (by norm_num [s10state, freshOrta_eq])
    (by norm_num [s10state, freshOrta_eq])
    ⟨bombHit, by norm_num [s10state, freshOrta_eq],
      (check_bomb_sliceB_iff _ _).mp (by
        norm_num [check_bomb_sliceB, pathSegments, segmentHitB, distSqToClamped, bombHit,
          s10state, freshOrta_eq, pos10])⟩

end FruitNinjaGame
